import Mathlib

/-
Shallow embedding of the watershed monitor (internal/watershed/monitor.go).

Modelling conventions:
- float64 values are modelled as Rat (the claims involve no NaN/Inf inputs;
  JSON readings cannot encode NaN, and comparisons on ordinary values agree).
- time.Time / time.Duration are modelled as Int nanoseconds since the epoch;
  Hour mirrors time.Hour.
- os.Getenv is modelled as a function String → String returning "" for unset
  variables, exactly as in Go.
- strconv.ParseFloat is modelled on plain decimal notation (optional sign,
  digits, optional fraction); the claims only involve such strings.
- Side effects (SES send, S3 get/put) are modelled as oracle parameters; the
  evaluator returns its outcome, the new state and whether a send was
  attempted, which in the Go code correspond to which branch executed.
-/

namespace Watershed

/-- Outcome vocabulary of the reading evaluator (spec section 4.3); in the Go
code `checkAndNotify` returns nothing, the outcome is which branch ran. -/
inductive Outcome
  | NotNeeded
  | Suppressed
  | Sent
  | SendFailed
deriving DecidableEq, Repr

abbrev Time := Int

/-- time.Hour in nanoseconds. -/
def Hour : Time := 3600000000000

/-- Go struct ThresholdConfig{max, min float64}. -/
structure ThresholdConfig where
  max : Rat
  min : Rat
deriving DecidableEq, Repr

/-- Environment: os.Getenv semantics, "" when unset. -/
abbrev Env := String → String

def digitsToNat (cs : List Char) : Nat :=
  cs.foldl (fun a c => a * 10 + (c.toNat - 48)) 0

/-- The value of an unsigned decimal literal: integer digits, optional '.' and
fraction digits; at least one digit overall. -/
def parseUnsigned (cs : List Char) : Option Rat :=
  let intPart := cs.takeWhile Char.isDigit
  let after := cs.dropWhile Char.isDigit
  match after with
  | [] => if intPart.isEmpty then none else some (digitsToNat intPart : Rat)
  | '.' :: frac =>
      if frac.all Char.isDigit ∧ ¬(intPart.isEmpty ∧ frac.isEmpty) then
        some ((digitsToNat intPart : Rat) +
          (digitsToNat frac : Rat) / ((10 : Rat) ^ frac.length))
      else none
  | _ => none

/-- Model of strconv.ParseFloat on plain decimal strings: optional sign, then
an unsigned decimal literal. -/
def parseFloat (s : String) : Option Rat :=
  match s.data with
  | '-' :: r => (parseUnsigned r).map (fun q => -q)
  | '+' :: r => parseUnsigned r
  | r => parseUnsigned r

/-- The hard-coded defaults map in getThresholdFromEnv (latest revision). -/
def defaults : List (String × ThresholdConfig) :=
  [("WATER_DEPTH", ⟨1000, 0⟩),
   ("TEMPERATURE", ⟨26, -20⟩),
   ("ELECTRICAL_CONDUCTIVITY", ⟨600, 0⟩),
   ("TURBIDITY", ⟨150, 0⟩),
   ("BATTERY_VOLTAGE", ⟨5, 0⟩),
   ("PERCENT_FULL_SCALE", ⟨101, 0⟩),
   ("RELATIVE_HUMIDITY", ⟨100, 0⟩)]

/-- Go map indexing `defaults[measurement]`: the zero value ThresholdConfig{0,0}
is returned when the key is missing. -/
def defaultsLookup (measurement : String) : ThresholdConfig :=
  ((defaults.find? (fun p => p.1 == measurement)).map Prod.snd).getD ⟨0, 0⟩

/-- getThresholdFromEnv: use <M>_MAX / <M>_MIN from the environment when set
and parseable, otherwise the per-measurement default. -/
def getThresholdFromEnv (env : Env) (measurement : String) : ThresholdConfig :=
  let maxStr := env (measurement ++ "_MAX")
  let minStr := env (measurement ++ "_MIN")
  let default_config := defaultsLookup measurement
  let maxV : Rat :=
    if maxStr ≠ "" then
      match parseFloat maxStr with
      | some parsed => parsed
      | none => default_config.max
    else default_config.max
  let minV : Rat :=
    if minStr ≠ "" then
      match parseFloat minStr with
      | some parsed => parsed
      | none => default_config.min
    else default_config.min
  ⟨maxV, minV⟩

/-- strings.ReplaceAll(strings.ToUpper(name), " ", "_"), written as one pass
over the characters (Char.toUpper fixes ' ', so the passes commute). -/
def toEnvName (name : String) : String :=
  ⟨name.data.map (fun c =>
    let u := c.toUpper
    if u = ' ' then '_' else u)⟩

/-- The in-memory part of Monitor: lastEmailSent map[string]time.Time,
modelled as an association list with at most one binding per key. -/
structure MonitorState where
  lastEmailSent : List (String × Time)
deriving DecidableEq, Repr

/-- getLastEmailTime: map lookup with presence flag. -/
def getLastEmailTime (s : MonitorState) (name : String) : Option Time :=
  (s.lastEmailSent.find? (fun p => p.1 == name)).map Prod.snd

/-- updateLastEmailTime: map assignment; always returns nil error. -/
def updateLastEmailTime (s : MonitorState) (name : String) (t : Time) :
    Option String × MonitorState :=
  (none, ⟨(name, t) :: s.lastEmailSent.filter (fun p => ¬(p.1 == name))⟩)

/-- Result of one evaluator call: the outcome, the state after the call, and
whether sendEmailSES was invoked. -/
structure EvalResult where
  outcome : Outcome
  state : MonitorState
  attemptedSend : Bool
deriving DecidableEq, Repr

/-- checkAndNotify. Oracles: `sendOk` is whether sendEmailSES succeeds, `now`
is time.Now() observed by time.Since at the cooldown check, `deliveryTime` is
time.Now() observed after a successful send (the value stored in the ledger).
`timestamp` is the reading's observation time; it is only used for the email
body in the Go code. -/
def checkAndNotify (env : Env) (sendOk : Bool) (now deliveryTime : Time)
    (s : MonitorState) (name : String) (value : Rat) (timestamp : Time) :
    EvalResult :=
  let envName := toEnvName name
  let threshold := getThresholdFromEnv env envName
  if value ≥ threshold.max ∨ value < threshold.min then
    -- the code that runs when the cooldown check falls through
    let afterCooldown : EvalResult :=
      if env "EMAIL_RECIPIENT" = "" then ⟨.Suppressed, s, false⟩
      else if sendOk then
        match updateLastEmailTime s name deliveryTime with
        | (some _, _) => ⟨.Sent, s, true⟩   -- warning branch in the source
        | (none, s1) => ⟨.Sent, s1, true⟩
      else ⟨.SendFailed, s, true⟩
    match getLastEmailTime s name with
    | some lastSent =>
        if now - lastSent < 12 * Hour then ⟨.Suppressed, s, false⟩
        else afterCooldown
    | none => afterCooldown
  else ⟨.NotNeeded, s, false⟩

/-- One S3 GetObject result for the state key: NoSuchKey, another error, or a
body. The body is modelled as the token stream the JSON decoder consumes: a
well-formed binding or a malformed token at which decoding stops. -/
inductive BlobEntry
  | ok (name : String) (t : Time)
  | bad
deriving DecidableEq, Repr

def BlobEntry.isOk : BlobEntry → Bool
  | .ok _ _ => true
  | .bad => false

inductive BlobGet
  | absentKey
  | getErr
  | present (entries : List BlobEntry)
deriving DecidableEq, Repr

/-- json.Decoder.Decode into the map: bindings are inserted as they are
parsed; a malformed token stops decoding with an error, keeping the bindings
already inserted. -/
def decodeInto : MonitorState → List BlobEntry → Option String × MonitorState
  | s, [] => (none, s)
  | s, .ok n t :: rest => decodeInto (updateLastEmailTime s n t).2 rest
  | s, .bad :: _ => (some "error decoding state", s)

/-- The effect of decoding one well-formed binding into the map (a malformed
token has no effect on the map, it only stops decoding). -/
def applyEntry (st : MonitorState) : BlobEntry → MonitorState
  | .ok n t => (updateLastEmailTime st n t).2
  | .bad => st

/-- loadState: NoSuchKey starts fresh with nil error; any other GetObject
error is returned with the map untouched; a present body first RESETS the map
to empty and then decodes into it. -/
def loadState (s : MonitorState) (blob : BlobGet) : Option String × MonitorState :=
  match blob with
  | .absentKey => (none, ⟨[]⟩)
  | .getErr => (some "error loading state from S3", s)
  | .present entries => decodeInto ⟨[]⟩ entries

/-- Result of saveState: the returned error and whether PutObject was
invoked. (json.Marshal of map[string]time.Time cannot fail.) -/
structure SaveResult where
  err : Option String
  wroteAttempt : Bool
deriving DecidableEq, Repr

/-- saveState: skip the write when the map is empty; otherwise PutObject,
whose success is the oracle `putOk`. -/
def saveState (s : MonitorState) (putOk : Bool) : SaveResult :=
  if s.lastEmailSent.length = 0 then ⟨none, false⟩
  else if putOk then ⟨none, true⟩
  else ⟨some "error saving state to S3", true⟩

def desiredMeasurements : List String :=
  ["Water depth", "Temperature", "Electrical conductivity", "Turbidity",
   "Battery voltage", "Percent full scale", "Relative humidity"]

/-- The external world one RunOnce cycle interacts with: the S3 state blob,
the catalog fetch result (none = fetchResultID error), per-resultID readings
(none = fetch/parse error for that series), send and put success, and the
clock. -/
structure World where
  blob : BlobGet
  catalog : Option (List (String × String))
  readings : String → Option (List (Rat × Time))
  sendOk : Bool
  putOk : Bool
  now : Time

/-- fetchTimeSeriesData: fetch the series and run every sample through
checkAndNotify. Returns the error, the new state, and the list of names a
sample was evaluated for (one entry per sample). -/
def fetchTimeSeriesData (env : Env) (w : World) (s : MonitorState)
    (name resultID : String) : Option String × MonitorState × List String :=
  match w.readings resultID with
  | none => (some ("error fetching " ++ name), s, [])
  | some samples =>
      (none,
       samples.foldl
         (fun st p => (checkAndNotify env w.sendOk w.now w.now st name p.1 p.2).state) s,
       samples.map (fun _ => name))

/-- One iteration of the RunOnce loop body for one desired measurement name:
skip names missing from the catalog; a fetch error is logged and skipped;
success bumps successCount. The accumulator also carries the names evaluated
so far. -/
def runStep (env : Env) (w : World) (c : List (String × String))
    (acc : MonitorState × Nat × List String) (name : String) :
    MonitorState × Nat × List String :=
  match c.find? (fun p => p.1 == name) with
  | some pr =>
      match fetchTimeSeriesData env w acc.1 name pr.2 with
      | (some _, st, _) => (st, acc.2.1, acc.2.2)
      | (none, st, ev) => (st, acc.2.1 + 1, acc.2.2 ++ ev)
  | none => acc

/-- Result of one cycle: the returned error, the final in-memory state, the
success counter, the names evaluated, and whether the final save attempted a
write. -/
structure RunResult where
  err : Option String
  state : MonitorState
  successCount : Nat
  evaluatedNames : List String
  saveAttempted : Bool
deriving Repr

/-- RunOnce: load state (failure only logged), fetch the catalog (failure
aborts the cycle), process the seven desired measurements, save state
(failure only logged). -/
def RunOnce (env : Env) (w : World) (m : MonitorState) : RunResult :=
  let m1 := (loadState m w.blob).2
  match w.catalog with
  | none => ⟨some "error fetching measurements", m1, 0, [], false⟩
  | some measurements =>
      let folded := desiredMeasurements.foldl (runStep env w measurements) (m1, 0, [])
      let sv := saveState folded.1 w.putOk
      ⟨none, folded.1, folded.2.1, folded.2.2, sv.wroteAttempt⟩

/-- A concrete environment with only EMAIL_RECIPIENT set. -/
def envRec : Env := fun k => if k = "EMAIL_RECIPIENT" then "r@x" else ""

/-- A concrete world for exercising RunOnce: the state blob is absent, the
catalog lists only Temperature under series id "42", the readings fetch for
"42" yields one sample (27 at time 0), sends succeed and the final put
fails. -/
def worldTemp : World where
  blob := .absentKey
  catalog := some [("Temperature", "42")]
  readings := fun rid => if rid = "42" then some [(27, 0)] else none
  sendOk := true
  putOk := false
  now := 0

/-- Whether one desired measurement name is processed successfully in a
cycle: it is present in the catalog and its readings fetch succeeds. -/
def fetchSuccess (w : World) (c : List (String × String)) (n : String) : Bool :=
  match c.find? (fun p => p.1 == n) with
  | some pr => (w.readings pr.2).isSome
  | none => false

/-- The out-of-range test of checkAndNotify, for the resolved threshold of a
(raw, un-normalized) measurement name. -/
def outOfRange (env : Env) (name : String) (value : Rat) : Prop :=
  value ≥ (getThresholdFromEnv env (toEnvName name)).max ∨
    value < (getThresholdFromEnv env (toEnvName name)).min

instance (env : Env) (name : String) (value : Rat) :
    Decidable (outOfRange env name value) := by
  unfold outOfRange; infer_instance

/-- Shorthand for "the cooldown does not block an alert for `name` at `now`":
either no previous alert is recorded, or it is at least 12 hours old. -/
def cooldownClear (s : MonitorState) (name : String) (now : Time) : Prop :=
  ∀ ls, getLastEmailTime s name = some ls → 12 * Hour ≤ now - ls

/- Branch characterization lemmas for checkAndNotify. -/

lemma checkAndNotify_inRange (env : Env) (sendOk : Bool) (now d : Time)
    (s : MonitorState) (name : String) (value : Rat) (ts : Time)
    (h : ¬ outOfRange env name value) :
    checkAndNotify env sendOk now d s name value ts = ⟨.NotNeeded, s, false⟩ := by
  unfold outOfRange at h
  simp only [checkAndNotify]
  rw [if_neg h]

lemma checkAndNotify_cooldown (env : Env) (sendOk : Bool) (now d : Time)
    (s : MonitorState) (name : String) (value : Rat) (ts : Time) (ls : Time)
    (hout : outOfRange env name value)
    (hlast : getLastEmailTime s name = some ls)
    (hcd : now - ls < 12 * Hour) :
    checkAndNotify env sendOk now d s name value ts = ⟨.Suppressed, s, false⟩ := by
  unfold outOfRange at hout
  simp only [checkAndNotify]
  rw [if_pos hout, hlast]
  simp only [if_pos hcd]

lemma checkAndNotify_noRecipient (env : Env) (sendOk : Bool) (now d : Time)
    (s : MonitorState) (name : String) (value : Rat) (ts : Time)
    (hout : outOfRange env name value)
    (hclear : cooldownClear s name now)
    (hrec : env "EMAIL_RECIPIENT" = "") :
    checkAndNotify env sendOk now d s name value ts = ⟨.Suppressed, s, false⟩ := by
  unfold outOfRange at hout
  simp only [checkAndNotify]
  rw [if_pos hout]
  rcases hm : getLastEmailTime s name with _ | ls
  · simp [hrec]
  · have hge : ¬ (now - ls < 12 * Hour) := not_lt.mpr (hclear ls hm)
    simp [if_neg hge, hrec]

lemma checkAndNotify_sent (env : Env) (now d : Time)
    (s : MonitorState) (name : String) (value : Rat) (ts : Time)
    (hout : outOfRange env name value)
    (hclear : cooldownClear s name now)
    (hrec : env "EMAIL_RECIPIENT" ≠ "") :
    checkAndNotify env true now d s name value ts
      = ⟨.Sent, (updateLastEmailTime s name d).2, true⟩ := by
  unfold outOfRange at hout
  simp only [checkAndNotify, updateLastEmailTime]
  rw [if_pos hout]
  rcases hm : getLastEmailTime s name with _ | ls
  · simp [if_neg hrec]
  · have hge : ¬ (now - ls < 12 * Hour) := not_lt.mpr (hclear ls hm)
    simp [if_neg hge, if_neg hrec]

lemma checkAndNotify_sendFailed (env : Env) (now d : Time)
    (s : MonitorState) (name : String) (value : Rat) (ts : Time)
    (hout : outOfRange env name value)
    (hclear : cooldownClear s name now)
    (hrec : env "EMAIL_RECIPIENT" ≠ "") :
    checkAndNotify env false now d s name value ts = ⟨.SendFailed, s, true⟩ := by
  unfold outOfRange at hout
  simp only [checkAndNotify]
  rw [if_pos hout]
  rcases hm : getLastEmailTime s name with _ | ls
  · simp [if_neg hrec]
  · have hge : ¬ (now - ls < 12 * Hour) := not_lt.mpr (hclear ls hm)
    simp [if_neg hge, if_neg hrec]

lemma getLastEmailTime_update (s : MonitorState) (name : String) (t : Time) :
    getLastEmailTime (updateLastEmailTime s name t).2 name = some t := by
  simp [getLastEmailTime, updateLastEmailTime, List.find?]

lemma cooldownClear_of_none (s : MonitorState) (name : String) (now : Time)
    (hm : getLastEmailTime s name = none) : cooldownClear s name now :=
  fun ls h => Option.noConfusion (hm.symm.trans h)

lemma cooldownClear_of_expired (s : MonitorState) (name : String) (now ls : Time)
    (hm : getLastEmailTime s name = some ls)
    (hcd : ¬ (now - ls < 12 * Hour)) : cooldownClear s name now := by
  intro ls2 h2
  rw [hm] at h2
  injection h2 with h3
  rw [← h3]
  exact not_lt.mp hcd

lemma checkAndNotify_out_not_needed (env : Env) (sendOk : Bool) (now d : Time)
    (s : MonitorState) (name : String) (value : Rat) (ts : Time)
    (hout : outOfRange env name value) :
    (checkAndNotify env sendOk now d s name value ts).outcome ≠ .NotNeeded := by
  rcases hm : getLastEmailTime s name with _ | ls
  · by_cases hrec : env "EMAIL_RECIPIENT" = ""
    · rw [checkAndNotify_noRecipient env sendOk now d s name value ts hout
        (cooldownClear_of_none s name now hm) hrec]
      simp
    · cases sendOk
      · rw [checkAndNotify_sendFailed env now d s name value ts hout
          (cooldownClear_of_none s name now hm) hrec]
        simp
      · rw [checkAndNotify_sent env now d s name value ts hout
          (cooldownClear_of_none s name now hm) hrec]
        simp
  · by_cases hcd : now - ls < 12 * Hour
    · rw [checkAndNotify_cooldown env sendOk now d s name value ts ls hout hm hcd]
      simp
    · by_cases hrec : env "EMAIL_RECIPIENT" = ""
      · rw [checkAndNotify_noRecipient env sendOk now d s name value ts hout
          (cooldownClear_of_expired s name now ls hm hcd) hrec]
        simp
      · cases sendOk
        · rw [checkAndNotify_sendFailed env now d s name value ts hout
            (cooldownClear_of_expired s name now ls hm hcd) hrec]
          simp
        · rw [checkAndNotify_sent env now d s name value ts hout
            (cooldownClear_of_expired s name now ls hm hcd) hrec]
          simp

lemma checkAndNotify_frame_noRecipient (env : Env) (sendOk : Bool) (now d : Time)
    (s : MonitorState) (name : String) (value : Rat) (ts : Time)
    (hrec : env "EMAIL_RECIPIENT" = "") :
    (checkAndNotify env sendOk now d s name value ts).state = s ∧
      (checkAndNotify env sendOk now d s name value ts).attemptedSend = false := by
  by_cases hout : outOfRange env name value
  · rcases hm : getLastEmailTime s name with _ | ls
    · rw [checkAndNotify_noRecipient env sendOk now d s name value ts hout
        (cooldownClear_of_none s name now hm) hrec]
      exact ⟨rfl, rfl⟩
    · by_cases hcd : now - ls < 12 * Hour
      · rw [checkAndNotify_cooldown env sendOk now d s name value ts ls hout hm hcd]
        exact ⟨rfl, rfl⟩
      · rw [checkAndNotify_noRecipient env sendOk now d s name value ts hout
          (cooldownClear_of_expired s name now ls hm hcd) hrec]
        exact ⟨rfl, rfl⟩
  · rw [checkAndNotify_inRange env sendOk now d s name value ts hout]
    exact ⟨rfl, rfl⟩

/-- Claim C1: with a delivered first alert for measurement m at time t1, a
second out-of-range evaluation at t2 is Suppressed (no send attempted, ledger
unchanged) when t2 − t1 < 12 hours, and Sent again when t2 − t1 ≥ 12 hours:
at most one delivered alert per measurement per 12-hour cooldown window. -/
theorem claim_C1 (env : Env) (s : MonitorState) (m : String) (v1 v2 : Rat)
    (t1 t2 ts1 ts2 d2 : Time) (sendOk2 : Bool)
    (hrec : env "EMAIL_RECIPIENT" ≠ "")
    (hout1 : outOfRange env m v1) (hout2 : outOfRange env m v2)
    (hclear : cooldownClear s m t1) :
    (checkAndNotify env true t1 t1 s m v1 ts1).outcome = .Sent ∧
    (t2 - t1 < 12 * Hour →
      checkAndNotify env sendOk2 t2 d2
          (checkAndNotify env true t1 t1 s m v1 ts1).state m v2 ts2
        = ⟨.Suppressed, (checkAndNotify env true t1 t1 s m v1 ts1).state, false⟩) ∧
    (12 * Hour ≤ t2 - t1 →
      (checkAndNotify env true t2 d2
          (checkAndNotify env true t1 t1 s m v1 ts1).state m v2 ts2).outcome = .Sent) := by
  rw [checkAndNotify_sent env t1 t1 s m v1 ts1 hout1 hclear hrec]
  refine ⟨rfl, ?_, ?_⟩
  · intro hlt
    exact checkAndNotify_cooldown env sendOk2 t2 d2 _ m v2 ts2 t1 hout2
      (getLastEmailTime_update s m t1) hlt
  · intro hge
    rw [checkAndNotify_sent env t2 d2 _ m v2 ts2 hout2
      (cooldownClear_of_expired _ m t2 t1 (getLastEmailTime_update s m t1)
        (not_lt.mpr hge)) hrec]

/-- Witness for claim C1: Temperature 27 then 28 against the default range
[−20, 26), first call at time 0, second at 1 hour (Suppressed) and the
expired-cooldown clause at 13 hours (Sent). -/
theorem claim_C1_witness :
    (checkAndNotify (fun k => if k = "EMAIL_RECIPIENT" then "r@x" else "")
        true 0 0 ⟨[]⟩ "Temperature" 27 0).outcome = .Sent ∧
    (Hour - 0 < 12 * Hour →
      checkAndNotify (fun k => if k = "EMAIL_RECIPIENT" then "r@x" else "")
          false Hour Hour
          (checkAndNotify (fun k => if k = "EMAIL_RECIPIENT" then "r@x" else "")
            true 0 0 ⟨[]⟩ "Temperature" 27 0).state "Temperature" 28 0
        = ⟨.Suppressed,
            (checkAndNotify (fun k => if k = "EMAIL_RECIPIENT" then "r@x" else "")
              true 0 0 ⟨[]⟩ "Temperature" 27 0).state, false⟩) ∧
    (12 * Hour ≤ Hour - 0 →
      (checkAndNotify (fun k => if k = "EMAIL_RECIPIENT" then "r@x" else "")
          true Hour Hour
          (checkAndNotify (fun k => if k = "EMAIL_RECIPIENT" then "r@x" else "")
            true 0 0 ⟨[]⟩ "Temperature" 27 0).state "Temperature" 28 0).outcome
        = .Sent) :=
  claim_C1 (fun k => if k = "EMAIL_RECIPIENT" then "r@x" else "") ⟨[]⟩
    "Temperature" 27 28 0 Hour 0 0 Hour false (by decide) (by decide) (by decide)
    (cooldownClear_of_none ⟨[]⟩ "Temperature" 0 (by decide))

/-- Claim C2: evaluation takes the no-alert path (NotNeeded, state unchanged,
no send attempted) iff min(m) ≤ v < max(m) for the resolved threshold; that
is, v is out-of-range iff v ≥ max or v < min. -/
theorem claim_C2 (env : Env) (sendOk : Bool) (now d : Time) (s : MonitorState)
    (name : String) (value : Rat) (ts : Time) :
    ((checkAndNotify env sendOk now d s name value ts).outcome = .NotNeeded ↔
      ((getThresholdFromEnv env (toEnvName name)).min ≤ value ∧
        value < (getThresholdFromEnv env (toEnvName name)).max)) ∧
    ((getThresholdFromEnv env (toEnvName name)).min ≤ value ∧
        value < (getThresholdFromEnv env (toEnvName name)).max →
      checkAndNotify env sendOk now d s name value ts = ⟨.NotNeeded, s, false⟩) := by
  by_cases hout : outOfRange env name value
  · have hnot : ¬ ((getThresholdFromEnv env (toEnvName name)).min ≤ value ∧
        value < (getThresholdFromEnv env (toEnvName name)).max) := by
      unfold outOfRange at hout
      rcases hout with h | h
      · exact fun hc => absurd hc.2 (not_lt.mpr h)
      · exact fun hc => absurd hc.1 (not_le.mpr h)
    exact ⟨iff_of_false
        (checkAndNotify_out_not_needed env sendOk now d s name value ts hout) hnot,
      fun hc => absurd hc hnot⟩
  · have hin : (getThresholdFromEnv env (toEnvName name)).min ≤ value ∧
        value < (getThresholdFromEnv env (toEnvName name)).max := by
      unfold outOfRange at hout
      push_neg at hout
      exact ⟨hout.2, hout.1⟩
    rw [checkAndNotify_inRange env sendOk now d s name value ts hout]
    exact ⟨iff_of_true rfl hin, fun _ => rfl⟩

/-- Witness for claim C2: Battery voltage 4.2 is inside the default range
[0, 5), so evaluation is NotNeeded with the ledger untouched. -/
theorem claim_C2_witness :
    ((checkAndNotify (fun _ => "") true 0 0 ⟨[("Temperature", 3)]⟩
        "Battery voltage" (21/5) 0).outcome = .NotNeeded ↔
      ((getThresholdFromEnv (fun _ => "") (toEnvName "Battery voltage")).min ≤ (21/5 : Rat) ∧
        (21/5 : Rat) < (getThresholdFromEnv (fun _ => "") (toEnvName "Battery voltage")).max)) ∧
    ((getThresholdFromEnv (fun _ => "") (toEnvName "Battery voltage")).min ≤ (21/5 : Rat) ∧
        (21/5 : Rat) < (getThresholdFromEnv (fun _ => "") (toEnvName "Battery voltage")).max →
      checkAndNotify (fun _ => "") true 0 0 ⟨[("Temperature", 3)]⟩
          "Battery voltage" (21/5) 0
        = ⟨.NotNeeded, ⟨[("Temperature", 3)]⟩, false⟩) :=
  claim_C2 (fun _ => "") true 0 0 ⟨[("Temperature", 3)]⟩ "Battery voltage" (21/5) 0

/-- Claim C3: when delivery succeeds the ledger entry for the name becomes the
delivery-completion time d (not the reading's observedAt), outcome Sent; when
delivery fails the ledger is untouched, outcome SendFailed, and an identical
repeated failing call is SendFailed again, never Suppressed. -/
theorem claim_C3 (env : Env) (now d : Time) (s : MonitorState) (name : String)
    (value : Rat) (ts : Time)
    (hout : outOfRange env name value)
    (hclear : cooldownClear s name now)
    (hrec : env "EMAIL_RECIPIENT" ≠ "") :
    (checkAndNotify env true now d s name value ts
        = ⟨.Sent, (updateLastEmailTime s name d).2, true⟩) ∧
    getLastEmailTime (checkAndNotify env true now d s name value ts).state name = some d ∧
    (checkAndNotify env false now d s name value ts = ⟨.SendFailed, s, true⟩) ∧
    (checkAndNotify env false now d
        (checkAndNotify env false now d s name value ts).state name value ts).outcome
      = .SendFailed := by
  have hfail := checkAndNotify_sendFailed env now d s name value ts hout hclear hrec
  refine ⟨checkAndNotify_sent env now d s name value ts hout hclear hrec, ?_, hfail, ?_⟩
  · rw [checkAndNotify_sent env now d s name value ts hout hclear hrec]
    exact getLastEmailTime_update s name d
  · rw [hfail, checkAndNotify_sendFailed env now d s name value ts hout hclear hrec]

/-- Witness for claim C3: Turbidity 180 against the default range [0, 150)
with an empty ledger; delivery time 7 is recorded on success, the failing
branch leaves the ledger empty and repeats SendFailed. -/
theorem claim_C3_witness :
    (checkAndNotify (fun k => if k = "EMAIL_RECIPIENT" then "r@x" else "")
        true 5 7 ⟨[]⟩ "Turbidity" 180 3
        = ⟨.Sent, (updateLastEmailTime ⟨[]⟩ "Turbidity" 7).2, true⟩) ∧
    getLastEmailTime (checkAndNotify (fun k => if k = "EMAIL_RECIPIENT" then "r@x" else "")
        true 5 7 ⟨[]⟩ "Turbidity" 180 3).state "Turbidity" = some 7 ∧
    (checkAndNotify (fun k => if k = "EMAIL_RECIPIENT" then "r@x" else "")
        false 5 7 ⟨[]⟩ "Turbidity" 180 3 = ⟨.SendFailed, ⟨[]⟩, true⟩) ∧
    (checkAndNotify (fun k => if k = "EMAIL_RECIPIENT" then "r@x" else "")
        false 5 7
        (checkAndNotify (fun k => if k = "EMAIL_RECIPIENT" then "r@x" else "")
          false 5 7 ⟨[]⟩ "Turbidity" 180 3).state "Turbidity" 180 3).outcome
      = .SendFailed :=
  claim_C3 (fun k => if k = "EMAIL_RECIPIENT" then "r@x" else "") 5 7 ⟨[]⟩
    "Turbidity" 180 3 (by decide)
    (cooldownClear_of_none ⟨[]⟩ "Turbidity" 5 (by decide)) (by decide)

/-- Claim C9: with EMAIL_RECIPIENT unset, checkAndNotify never attempts a
delivery and leaves the ledger unchanged, for every name, value and
timestamp, so an out-of-range condition never enters a cooldown. -/
theorem claim_C9 (env : Env) (sendOk : Bool) (now d : Time) (s : MonitorState)
    (name : String) (value : Rat) (ts : Time)
    (hrec : env "EMAIL_RECIPIENT" = "") :
    (checkAndNotify env sendOk now d s name value ts).state = s ∧
    (checkAndNotify env sendOk now d s name value ts).attemptedSend = false :=
  checkAndNotify_frame_noRecipient env sendOk now d s name value ts hrec

/-- Witness for claim C9: out-of-range Temperature 30 with no recipient
configured leaves the ledger unchanged and attempts no send. -/
theorem claim_C9_witness :
    (checkAndNotify (fun _ => "") true 0 0 ⟨[("Turbidity", 2)]⟩
        "Temperature" 30 0).state = ⟨[("Turbidity", 2)]⟩ ∧
    (checkAndNotify (fun _ => "") true 0 0 ⟨[("Turbidity", 2)]⟩
        "Temperature" 30 0).attemptedSend = false :=
  claim_C9 (fun _ => "") true 0 0 ⟨[("Turbidity", 2)]⟩ "Temperature" 30 0 rfl

/-- Claim C10: updateLastEmailTime always returns nil, so the failure branch
after a successful delivery is unreachable and every successful send records
its timestamp in the in-memory ledger. -/
theorem claim_C10 (env : Env) (now d ts : Time) (s : MonitorState)
    (name : String) (value : Rat) (t : Time) :
    (updateLastEmailTime s name t).1 = none ∧
    (outOfRange env name value → cooldownClear s name now →
      env "EMAIL_RECIPIENT" ≠ "" →
      (checkAndNotify env true now d s name value ts).outcome = .Sent ∧
      getLastEmailTime (checkAndNotify env true now d s name value ts).state name
        = some d) := by
  refine ⟨rfl, fun hout hclear hrec => ?_⟩
  rw [checkAndNotify_sent env now d s name value ts hout hclear hrec]
  exact ⟨rfl, getLastEmailTime_update s name d⟩

/-- Witness for claim C10: a successful send for Relative humidity 120
records delivery time 9 in the ledger. -/
theorem claim_C10_witness :
    (updateLastEmailTime ⟨[]⟩ "Relative humidity" 9).1 = none ∧
    (outOfRange (fun k => if k = "EMAIL_RECIPIENT" then "r@x" else "")
        "Relative humidity" 120 →
      cooldownClear ⟨[]⟩ "Relative humidity" 4 →
      (fun k => if k = "EMAIL_RECIPIENT" then "r@x" else "") "EMAIL_RECIPIENT" ≠ "" →
      (checkAndNotify (fun k => if k = "EMAIL_RECIPIENT" then "r@x" else "")
          true 4 9 ⟨[]⟩ "Relative humidity" 120 0).outcome = .Sent ∧
      getLastEmailTime (checkAndNotify (fun k => if k = "EMAIL_RECIPIENT" then "r@x" else "")
          true 4 9 ⟨[]⟩ "Relative humidity" 120 0).state "Relative humidity"
        = some 9) :=
  claim_C10 (fun k => if k = "EMAIL_RECIPIENT" then "r@x" else "")
    4 9 0 ⟨[]⟩ "Relative humidity" 120 9

lemma decodeInto_spec (entries : List BlobEntry) : ∀ s0 : MonitorState,
    (BlobEntry.bad ∈ entries → (decodeInto s0 entries).1.isSome = true) ∧
    (decodeInto s0 entries).2
      = (entries.takeWhile BlobEntry.isOk).foldl applyEntry s0 := by
  induction entries with
  | nil =>
    intro s0
    exact ⟨fun h => absurd h (List.not_mem_nil _), rfl⟩
  | cons e rest ih =>
    intro s0
    cases e with
    | ok n t =>
      constructor
      · intro hmem
        have hr : BlobEntry.bad ∈ rest := by
          rcases List.mem_cons.mp hmem with h | h
          · exact absurd h (by simp)
          · exact h
        simpa [decodeInto] using (ih _).1 hr
      · simpa [decodeInto, List.takeWhile, BlobEntry.isOk, applyEntry] using (ih _).2
    | bad =>
      exact ⟨fun _ => rfl, by simp [decodeInto, List.takeWhile, BlobEntry.isOk]⟩

/-- Counterexample to claim C4 as stated: on a present-but-malformed blob,
loadState reports an error but does NOT leave the previously-loaded ledger
state unmutated — the prior entry for Temperature is wiped, because the map
is reset to empty before decoding begins. -/
theorem claim_C4_counterexample :
    (loadState ⟨[("Temperature", 5)]⟩ (.present [.bad])).1.isSome = true ∧
    ¬ ((loadState ⟨[("Temperature", 5)]⟩ (.present [.bad])).2
        = ⟨[("Temperature", 5)]⟩) := by
  decide

/-- Claim C4 amended: loadState on a present-but-malformed blob returns an
error, but it first resets the in-memory ledger, so the prior state is
discarded and the ledger ends up holding exactly the (possibly partial)
prefix of entries decoded before the first malformed token — not the
all-or-nothing behaviour the claim states. -/
theorem claim_C4 (s : MonitorState) (entries : List BlobEntry)
    (hbad : BlobEntry.bad ∈ entries) :
    (loadState s (.present entries)).1.isSome = true ∧
    (loadState s (.present entries)).2
      = (entries.takeWhile BlobEntry.isOk).foldl applyEntry ⟨[]⟩ := by
  have h := decodeInto_spec entries ⟨[]⟩
  exact ⟨h.1 hbad, h.2⟩

/-- Witness for claim C4 (amended): prior state with a Temperature entry, a
blob with one good binding followed by a malformed token; the load errors and
the resulting ledger is the partial prefix, not the prior state. -/
theorem claim_C4_witness :
    (loadState ⟨[("Temperature", 5)]⟩
        (.present [.ok "Turbidity" 3, .bad])).1.isSome = true ∧
    (loadState ⟨[("Temperature", 5)]⟩ (.present [.ok "Turbidity" 3, .bad])).2
      = ([BlobEntry.ok "Turbidity" 3, BlobEntry.bad].takeWhile BlobEntry.isOk).foldl
          applyEntry ⟨[]⟩ :=
  claim_C4 ⟨[("Temperature", 5)]⟩ [.ok "Turbidity" 3, .bad] (by decide)

/-- Claim C6: saveState on an empty ledger performs no write and reports
success, and loadState when the blob is absent yields an empty ledger with no
error. -/
theorem claim_C6 (s s2 : MonitorState) (putOk : Bool)
    (h : s.lastEmailSent = []) :
    saveState s putOk = ⟨none, false⟩ ∧
    loadState s2 .absentKey = (none, ⟨[]⟩) := by
  constructor
  · simp [saveState, h]
  · rfl

/-- Witness for claim C6 at an empty ledger with a failing put oracle and a
nonempty previously-loaded state. -/
theorem claim_C6_witness :
    saveState ⟨[]⟩ false = ⟨none, false⟩ ∧
    loadState ⟨[("Temperature", 5)]⟩ .absentKey = (none, ⟨[]⟩) :=
  claim_C6 ⟨[]⟩ ⟨[("Temperature", 5)]⟩ false rfl

/-- Claim C7: the threshold resolver uses the <MEASUREMENT>_MAX /
<MEASUREMENT>_MIN override (keyed by the uppercased, space-to-underscore form
of the name) exactly when it is set and parses as a number, and otherwise
falls back to the built-in default; the Temperature default is min −20
(inclusive: −20 is in range) and max 26 (exclusive: 26 is out of range). The
resolver is a total function — it never fails. -/
theorem claim_C7 (env : Env) (name : String) :
    (∀ x : Rat, env (toEnvName name ++ "_MAX") ≠ "" →
      parseFloat (env (toEnvName name ++ "_MAX")) = some x →
      (getThresholdFromEnv env (toEnvName name)).max = x) ∧
    (env (toEnvName name ++ "_MAX") = "" ∨
        parseFloat (env (toEnvName name ++ "_MAX")) = none →
      (getThresholdFromEnv env (toEnvName name)).max
        = (defaultsLookup (toEnvName name)).max) ∧
    (∀ x : Rat, env (toEnvName name ++ "_MIN") ≠ "" →
      parseFloat (env (toEnvName name ++ "_MIN")) = some x →
      (getThresholdFromEnv env (toEnvName name)).min = x) ∧
    (env (toEnvName name ++ "_MIN") = "" ∨
        parseFloat (env (toEnvName name ++ "_MIN")) = none →
      (getThresholdFromEnv env (toEnvName name)).min
        = (defaultsLookup (toEnvName name)).min) ∧
    defaultsLookup (toEnvName "Temperature") = ⟨26, -20⟩ ∧
    outOfRange (fun _ => "") "Temperature" 26 ∧
    ¬ outOfRange (fun _ => "") "Temperature" (-20) := by
  refine ⟨?_, ?_, ?_, ?_, by decide, by decide, by decide⟩
  · intro x hne hp
    simp [getThresholdFromEnv, hne, hp]
  · rintro (h | h)
    · simp [getThresholdFromEnv, h]
    · by_cases hne : env (toEnvName name ++ "_MAX") = ""
      · simp [getThresholdFromEnv, hne]
      · simp [getThresholdFromEnv, hne, h]
  · intro x hne hp
    simp [getThresholdFromEnv, hne, hp]
  · rintro (h | h)
    · simp [getThresholdFromEnv, h]
    · by_cases hne : env (toEnvName name ++ "_MIN") = ""
      · simp [getThresholdFromEnv, hne]
      · simp [getThresholdFromEnv, hne, h]

/-- Witness for claim C7: Turbidity with TURBIDITY_MAX overridden to "200"
and TURBIDITY_MIN set to the unparsable "abc". -/
theorem claim_C7_witness :
    (∀ x : Rat, (fun k => if k = "TURBIDITY_MAX" then "200"
          else if k = "TURBIDITY_MIN" then "abc" else "")
          (toEnvName "Turbidity" ++ "_MAX") ≠ "" →
      parseFloat ((fun k => if k = "TURBIDITY_MAX" then "200"
          else if k = "TURBIDITY_MIN" then "abc" else "")
          (toEnvName "Turbidity" ++ "_MAX")) = some x →
      (getThresholdFromEnv (fun k => if k = "TURBIDITY_MAX" then "200"
          else if k = "TURBIDITY_MIN" then "abc" else "")
          (toEnvName "Turbidity")).max = x) ∧
    ((fun k => if k = "TURBIDITY_MAX" then "200"
          else if k = "TURBIDITY_MIN" then "abc" else "")
          (toEnvName "Turbidity" ++ "_MAX") = "" ∨
        parseFloat ((fun k => if k = "TURBIDITY_MAX" then "200"
          else if k = "TURBIDITY_MIN" then "abc" else "")
          (toEnvName "Turbidity" ++ "_MAX")) = none →
      (getThresholdFromEnv (fun k => if k = "TURBIDITY_MAX" then "200"
          else if k = "TURBIDITY_MIN" then "abc" else "")
          (toEnvName "Turbidity")).max
        = (defaultsLookup (toEnvName "Turbidity")).max) ∧
    (∀ x : Rat, (fun k => if k = "TURBIDITY_MAX" then "200"
          else if k = "TURBIDITY_MIN" then "abc" else "")
          (toEnvName "Turbidity" ++ "_MIN") ≠ "" →
      parseFloat ((fun k => if k = "TURBIDITY_MAX" then "200"
          else if k = "TURBIDITY_MIN" then "abc" else "")
          (toEnvName "Turbidity" ++ "_MIN")) = some x →
      (getThresholdFromEnv (fun k => if k = "TURBIDITY_MAX" then "200"
          else if k = "TURBIDITY_MIN" then "abc" else "")
          (toEnvName "Turbidity")).min = x) ∧
    ((fun k => if k = "TURBIDITY_MAX" then "200"
          else if k = "TURBIDITY_MIN" then "abc" else "")
          (toEnvName "Turbidity" ++ "_MIN") = "" ∨
        parseFloat ((fun k => if k = "TURBIDITY_MAX" then "200"
          else if k = "TURBIDITY_MIN" then "abc" else "")
          (toEnvName "Turbidity" ++ "_MIN")) = none →
      (getThresholdFromEnv (fun k => if k = "TURBIDITY_MAX" then "200"
          else if k = "TURBIDITY_MIN" then "abc" else "")
          (toEnvName "Turbidity")).min
        = (defaultsLookup (toEnvName "Turbidity")).min) ∧
    defaultsLookup (toEnvName "Temperature") = ⟨26, -20⟩ ∧
    outOfRange (fun _ => "") "Temperature" 26 ∧
    ¬ outOfRange (fun _ => "") "Temperature" (-20) :=
  claim_C7 (fun k => if k = "TURBIDITY_MAX" then "200"
    else if k = "TURBIDITY_MIN" then "abc" else "") "Turbidity"

lemma runStep_evalNames_subset (env : Env) (w : World) (c : List (String × String)) :
    ∀ (l : List String) (acc : MonitorState × Nat × List String) (x : String),
      x ∈ (l.foldl (runStep env w c) acc).2.2 → x ∈ acc.2.2 ∨ x ∈ l := by
  intro l
  induction l with
  | nil => intro acc x hx; exact Or.inl hx
  | cons a l ih =>
    intro acc x hx
    rw [List.foldl_cons] at hx
    rcases ih (runStep env w c acc a) x hx with h | h
    · rcases hf : c.find? (fun p => p.1 == a) with _ | pr
      · unfold runStep at h
        simp only [hf] at h
        exact Or.inl h
      · unfold runStep fetchTimeSeriesData at h
        simp only [hf] at h
        rcases hr : w.readings pr.2 with _ | samples
        · simp only [hr] at h
          exact Or.inl h
        · simp only [hr, List.mem_append] at h
          rcases h with h | h
          · exact Or.inl h
          · rcases List.mem_map.mp h with ⟨b, _, hb⟩
            rw [← hb]
            exact Or.inr (List.mem_cons_self a l)
    · exact Or.inr (List.mem_cons_of_mem a h)

lemma RunOnce_evalNames (env : Env) (w : World) (m : MonitorState) (x : String)
    (hx : x ∈ (RunOnce env w m).evaluatedNames) : x ∈ desiredMeasurements := by
  unfold RunOnce at hx
  rcases hcat : w.catalog with _ | c
  · simp only [hcat] at hx
    simp at hx
  · simp only [hcat] at hx
    rcases runStep_evalNames_subset env w c desiredMeasurements
        ((loadState m w.blob).2, 0, []) x hx with h | h
    · simp at h
    · exact h

/-- Counterexample to claim C5 as stated: for the name "pH", outside the
seven tracked quantities, the resolver yields the zero-value threshold
(min 0, max 0) rather than no threshold, and checkAndNotify does not skip
it — with a recipient configured and a working sender, value 1 produces a
Sent alert. -/
theorem claim_C5_counterexample :
    getThresholdFromEnv (fun k => if k = "EMAIL_RECIPIENT" then "r@x" else "")
        (toEnvName "pH") = ⟨0, 0⟩ ∧
    (checkAndNotify (fun k => if k = "EMAIL_RECIPIENT" then "r@x" else "")
        true 0 0 ⟨[]⟩ "pH" 1 0).outcome = .Sent := by
  decide

/-- Claim C5 amended: for a measurement name outside the seven tracked
quantities (with no overrides set for it), the resolver returns the Go
zero-value threshold (min 0, max 0), under which the evaluator treats every
value as out of range and never takes the no-alert path; such names are
never evaluated only because RunOnce iterates exactly the fixed list of
seven desired measurements. -/
theorem claim_C5 (env : Env) (name : String) (v : Rat) (sendOk : Bool)
    (now d ts : Time) (s : MonitorState)
    (hunk : defaults.find? (fun p => p.1 == toEnvName name) = none)
    (hmax : env (toEnvName name ++ "_MAX") = "")
    (hmin : env (toEnvName name ++ "_MIN") = "") :
    getThresholdFromEnv env (toEnvName name) = ⟨0, 0⟩ ∧
    (checkAndNotify env sendOk now d s name v ts).outcome ≠ .NotNeeded ∧
    (∀ (w : World) (m : MonitorState) (x : String),
      x ∈ (RunOnce env w m).evaluatedNames → x ∈ desiredMeasurements) := by
  have hthr : getThresholdFromEnv env (toEnvName name) = ⟨0, 0⟩ := by
    simp [getThresholdFromEnv, defaultsLookup, hunk, hmax, hmin]
  refine ⟨hthr, ?_, fun w m x hx => RunOnce_evalNames env w m x hx⟩
  have hout : outOfRange env name v := by
    unfold outOfRange
    rw [hthr]
    rcases le_or_lt 0 v with h | h
    · exact Or.inl h
    · exact Or.inr h
  exact checkAndNotify_out_not_needed env sendOk now d s name v ts hout

/-- Witness for claim C5 (amended) at the unknown name "pH" and value 1, with
a one-entry world exercising the orchestrator conjunct. -/
theorem claim_C5_witness :
    getThresholdFromEnv (fun _ => "") (toEnvName "pH") = ⟨0, 0⟩ ∧
    (checkAndNotify (fun _ => "") true 0 0 ⟨[]⟩ "pH" 1 0).outcome ≠ .NotNeeded ∧
    (∀ (w : World) (m : MonitorState) (x : String),
      x ∈ (RunOnce (fun _ => "") w m).evaluatedNames → x ∈ desiredMeasurements) :=
  claim_C5 (fun _ => "") "pH" 1 true 0 0 0 ⟨[]⟩ (by decide) rfl rfl

lemma runStep_count (env : Env) (w : World) (c : List (String × String)) :
    ∀ (l : List String) (acc : MonitorState × Nat × List String),
      (l.foldl (runStep env w c) acc).2.1
        = acc.2.1 + l.countP (fetchSuccess w c) := by
  intro l
  induction l with
  | nil => intro acc; simp
  | cons a l ih =>
    intro acc
    rw [List.foldl_cons, ih]
    rcases hf : c.find? (fun p => p.1 == a) with _ | pr
    · have hfs : fetchSuccess w c a = false := by simp [fetchSuccess, hf]
      rw [List.countP_cons_of_neg _ _ (by simp [hfs])]
      simp only [runStep, hf]
    · rcases hr : w.readings pr.2 with _ | samples
      · have hfs : fetchSuccess w c a = false := by simp [fetchSuccess, hf, hr]
        rw [List.countP_cons_of_neg _ _ (by simp [hfs])]
        simp only [runStep, fetchTimeSeriesData, hf, hr]
      · have hfs : fetchSuccess w c a = true := by simp [fetchSuccess, hf, hr]
        rw [List.countP_cons_of_pos _ _ (by simp [hfs])]
        simp only [runStep, fetchTimeSeriesData, hf, hr]
        omega

/-- Claim C8: RunOnce returns an error iff the catalog fetch fails; when the
catalog is available the cycle never fails — per-measurement fetch failures,
a ledger load failure and a ledger save failure are contained — the success
counter counts exactly the desired measurements present in the catalog whose
readings fetch succeeded, and the final save is attempted whenever the final
ledger is nonempty, regardless of the other failures. -/
theorem claim_C8 (env : Env) (w : World) (m : MonitorState) :
    ((RunOnce env w m).err.isSome = true ↔ w.catalog = none) ∧
    (∀ c, w.catalog = some c →
      (RunOnce env w m).successCount
          = desiredMeasurements.countP (fetchSuccess w c) ∧
      ((RunOnce env w m).saveAttempted = true ↔
        (RunOnce env w m).state.lastEmailSent ≠ [])) := by
  rcases hcat : w.catalog with _ | c
  · constructor
    · unfold RunOnce
      simp [hcat]
    · intro c hc
      exact Option.noConfusion hc
  · have hrun : RunOnce env w m =
        ⟨none,
         (desiredMeasurements.foldl (runStep env w c) ((loadState m w.blob).2, 0, [])).1,
         (desiredMeasurements.foldl (runStep env w c) ((loadState m w.blob).2, 0, [])).2.1,
         (desiredMeasurements.foldl (runStep env w c) ((loadState m w.blob).2, 0, [])).2.2,
         (saveState (desiredMeasurements.foldl (runStep env w c)
            ((loadState m w.blob).2, 0, [])).1 w.putOk).wroteAttempt⟩ := by
      unfold RunOnce
      simp [hcat]
    constructor
    · rw [hrun]
      simp
    · intro c2 hc2
      injection hc2 with hc3
      rw [← hc3]
      constructor
      · rw [hrun]
        simpa using runStep_count env w c desiredMeasurements ((loadState m w.blob).2, 0, [])
      · rw [hrun]
        unfold saveState
        rcases hlen : (desiredMeasurements.foldl (runStep env w c)
            ((loadState m w.blob).2, 0, [])).1.lastEmailSent with _ | ⟨p, rest⟩
        · simp [hlen]
        · rcases hput : w.putOk with _ | _ <;> simp [hlen, hput]

/-- Witness for claim C8: in the concrete world worldTemp (catalog with only
Temperature, readings fetch succeeding, save failing), the cycle returns no
error, the success count matches the count characterization, and the save is
attempted on the nonempty final ledger. -/
theorem claim_C8_witness :
    ((RunOnce envRec worldTemp ⟨[]⟩).err.isSome = true ↔ worldTemp.catalog = none) ∧
    (∀ c, worldTemp.catalog = some c →
      (RunOnce envRec worldTemp ⟨[]⟩).successCount
          = desiredMeasurements.countP (fetchSuccess worldTemp c) ∧
      ((RunOnce envRec worldTemp ⟨[]⟩).saveAttempted = true ↔
        (RunOnce envRec worldTemp ⟨[]⟩).state.lastEmailSent ≠ [])) :=
  claim_C8 envRec worldTemp ⟨[]⟩

end Watershed
